import Mathlib

/-
Verification of `models/tridimensional/docking_validation/dock_variants.py`.

The script is sequential glue around an external docking library (pyrosetta):
it maps integer PAM indices to 3-letter nucleotide strings, loops over
variant/program combinations, loads a structure file per combination, docks
and scores it, and appends fixed-format score reports to per-variant text
files.  The embedding below models the script's own logic exactly; the
external library calls (pose loading, scoring, the docking protocol, wall
clock readings, the csv collector from the separate `results_csv` module)
are abstracted as parameters collected in `LibEnv`, and the file system is a
map from paths to raw byte strings.  Raised Python exceptions are modelled
as an `err` field carrying the exception description; once set, execution
stops, mirroring exception propagation out of the script.
-/

namespace DockVariants

/-- Nucleotide alphabet, from `dna_nts = "acgt"` (line 12). -/
def dna_nts : String := "acgt"

/-- Program list, from `programs = ["Chimera", "3DNA"]` (line 13). -/
def programs : List String := ["Chimera", "3DNA"]

/-- Python string indexing `s[i]` for a nonnegative index: the character when
`i < len(s)`, otherwise an IndexError (modelled as `none`). -/
def py_str_index (s : String) (i : Nat) : Option Char :=
  s.data[i]?

/-- The variant string computed at line 91:
`dna_nts[i / 16] + dna_nts[i / 4 % 4] + dna_nts[i % 4]`, with Python 2
integer division.  `none` models the IndexError raised when a digit is out
of range of `dna_nts`. -/
def variant_of_index (i : Nat) : Option String := do
  let a ← py_str_index dna_nts (i / 16)
  let b ← py_str_index dna_nts (i / 4 % 4)
  let c ← py_str_index dna_nts (i % 4)
  pure (String.mk [a, b, c])

/-- posixpath.join of one further component onto an accumulated path. -/
def os_path_join1 (path b : String) : String :=
  if b.startsWith "/" then b
  else if path == "" || path.endsWith "/" then path ++ b
  else path ++ "/" ++ b

/-- `os.path.join(a, rest...)` on a POSIX system. -/
def os_path_join (a : String) (rest : List String) : String :=
  rest.foldl os_path_join1 a

/-- File system state: file contents by path (a file that does not exist
reads as the empty string, which is what appending to a fresh file sees),
and which directories exist. -/
structure FS where
  file : String → String
  dirs : String → Bool

/-- Opening `path` in mode `'a'` and writing `text`: the previous contents
are kept and `text` goes at the end. -/
def FS.write_append (fs : FS) (path text : String) : FS :=
  { fs with file := fun p => if p = path then fs.file p ++ text else fs.file p }

/-- The empty file system. -/
def fsEmpty : FS :=
  { file := fun _ => "", dirs := fun _ => false }

/-- Python list indexing `l[i]` for a nonnegative index, raising IndexError
past the end. -/
def py_list_get {S : Type} (l : List S) (i : Nat) : Except String S :=
  match l[i]? with
  | some x => Except.ok x
  | none => Except.error "IndexError"

/-- `write_dock_stats` (lines 16-32): opens `score_directory/filename` in
append mode and writes the five report lines in order.  `fmt_f83` stands for
the Python float rendering `"%8.3f" %% v`; scores and the time difference are
abstract values of type `S` because they are floats produced by the external
library. -/
def write_dock_stats {S : Type} (fmt_f83 : S → String)
    (score_directory filename : String) (dock_stats : List S) (time_diff : S)
    (fs : FS) : Except String FS := do
  let path := os_path_join score_directory [filename]
  let v0 ← py_list_get dock_stats 0
  let fs := fs.write_append path ("Initial DNA score: " ++ fmt_f83 v0 ++ "\n")
  let v1 ← py_list_get dock_stats 1
  let fs := fs.write_append path ("Final DNA Score: " ++ fmt_f83 v1 ++ "\n")
  let v2 ← py_list_get dock_stats 2
  let fs := fs.write_append path ("Initial FA score: " ++ fmt_f83 v2 ++ "\n")
  let v3 ← py_list_get dock_stats 3
  let fs := fs.write_append path ("Final FA score: " ++ fmt_f83 v3 ++ "\n")
  let fs := fs.write_append path ("Total variant time: " ++ fmt_f83 time_diff ++ "\n")
  Except.ok fs

/-- `dock_simple` (lines 35-65).  The library objects are abstracted:
`dna_score` is the configured dna score function (with `fa_elec` weight 1),
`fa_score` the full-atom score function, and `docking_apply` the effect of
`docking.apply` with the configured `DockMCMProtocol` on a pose.  The pose
is mutated in place by `apply`, so both final scores read the docked pose;
the function returns the score list together with the final pose state. -/
def dock_simple {P S : Type} (dna_score fa_score : P → S)
    (docking_apply : P → P) (pose : P) : List S × P :=
  let dna_init := dna_score pose
  let fa_init := fa_score pose
  let pose2 := docking_apply pose
  let dna_final := dna_score pose2
  let fa_final := fa_score pose2
  ([dna_init, dna_final, fa_init, fa_final], pose2)

/-- `dock_complex` (lines 68-75): unconditionally raises (the body is
`raise exception("Complex docking not implemented")`; the name `exception`
is not even a Python 2 builtin, so the statement raises in every case and
never produces a score list). -/
def dock_complex {P S : Type} (_pose : P) : Except String (List S) :=
  Except.error "Complex docking not implemented"

/-- External dependencies of the script, abstracted: the pyrosetta pose
loader, the two configured score functions, the docking protocol, the
`%8.3f` float renderer, a wall-clock oracle giving the measured duration of
the load-and-dock step for a pdb path, and the csv collector from the
separate `results_csv` module. -/
structure LibEnv (P S : Type) where
  pose_from_pdb : String → P
  dna_score : P → S
  fa_score : P → S
  docking_apply : P → P
  fmt_f83 : S → String
  time_of : String → S
  results_to_csv : String → FS → FS

/-- Execution state threaded through `dock_variants` and the main block:
the file system, the list of pdb paths passed to `pose_from_pdb` in order,
the full paths of result files written in order, the Python local variable
`dock_stats` (`none` while still unbound), and the pending exception. -/
structure RunState (S : Type) where
  fs : FS
  loads : List String
  result_files : List String
  dock_stats : Option (List S)
  err : Option String

/-- Fresh execution state over a given file system. -/
def init_state {S : Type} (fs : FS) : RunState S :=
  { fs := fs, loads := [], result_files := [], dock_stats := none, err := none }

/-- One iteration of the inner `for program in programs` loop of
`dock_variants` (lines 93-106): build the pdb path, load the pose, dock
(complex docking raises; simple docking binds `dock_stats`), then write the
result file.  A pending exception skips the iteration, modelling the raise
propagating out of the loop. -/
def dock_one_program {P S : Type} (env : LibEnv P S)
    (path_to_scores path_to_pdbs : String) (complex_docking_flag : Bool)
    (variant program : String) (st : RunState S) : RunState S :=
  if st.err.isSome then st else
  let pdb_path := os_path_join path_to_pdbs [program, "4UN3." ++ variant ++ ".pdb"]
  let loaded_pose := env.pose_from_pdb pdb_path
  let st1 := { st with loads := st.loads ++ [pdb_path] }
  let st2 :=
    if complex_docking_flag then
      match dock_complex (S := S) loaded_pose with
      | Except.error e => { st1 with err := some e }
      | Except.ok _ => st1
    else
      let stats := (dock_simple env.dna_score env.fa_score env.docking_apply loaded_pose).1
      { st1 with dock_stats := some stats }
  if st2.err.isSome then st2 else
  let results_filename := variant ++ "_" ++ program ++ ".txt"
  match st2.dock_stats with
  | none => { st2 with err := some "UnboundLocalError" }
  | some ds =>
    match write_dock_stats env.fmt_f83 path_to_scores results_filename ds
        (env.time_of pdb_path) st2.fs with
    | Except.error e => { st2 with err := some e }
    | Except.ok fs2 =>
      let res_path := os_path_join path_to_scores [results_filename]
      { st2 with
        fs := fs2
        result_files := st2.result_files ++ [res_path] }

/-- One iteration of the outer `for i in pam_variants` loop of
`dock_variants` (lines 90-106): compute the variant string for `i` (an
out-of-range digit raises IndexError), then run both programs in order. -/
def dock_one_variant {P S : Type} (env : LibEnv P S)
    (path_to_scores path_to_pdbs : String) (complex_docking_flag : Bool)
    (i : Nat) (st : RunState S) : RunState S :=
  if st.err.isSome then st else
  match variant_of_index i with
  | none => { st with err := some "IndexError" }
  | some variant =>
    programs.foldl
      (fun s program =>
        dock_one_program env path_to_scores path_to_pdbs complex_docking_flag
          variant program s) st

/-- `dock_variants` (lines 78-107). -/
def dock_variants {P S : Type} (env : LibEnv P S) (pam_variants : List Nat)
    (path_to_scores path_to_pdbs : String) (complex_docking_flag : Bool)
    (st : RunState S) : RunState S :=
  pam_variants.foldl
    (fun s i =>
      dock_one_variant env path_to_scores path_to_pdbs complex_docking_flag i s) st

/-- A Python value as far as truthiness is concerned: the bools used as
argparse defaults and the strings produced by `type=str`. -/
inductive PyVal where
  | pybool (b : Bool)
  | pystr (s : String)

/-- Python truthiness: `False` is falsy, `True` is truthy, a string is
truthy exactly when it is non-empty. -/
def PyVal.truthy : PyVal → Bool
  | PyVal.pybool b => b
  | PyVal.pystr s => !s.isEmpty

/-- Modelled from the documented behaviour of the standard-library argparse
option declared with `nargs='?', const=True, default=False, type=str`
(lines 121-124, both `--complex` and `--csv`): an absent option yields the
default `False`; the bare switch yields the const `True` (const values skip
the `type` conversion); a supplied value is passed through `type=str` and so
is always a string.  `none` models an absent option, `some none` the bare
switch, `some (some v)` the switch with an explicit value `v`. -/
def parse_optional_switch : Option (Option String) → PyVal
  | none => PyVal.pybool false
  | some none => PyVal.pybool true
  | some (some v) => PyVal.pystr v

/-- Python 2 `range(start, end + 1)` for the values that pass the main
block's assertion (so `0 <= start`), as a list of naturals. -/
def py_range_incl (start stop : Int) : List Nat :=
  (List.range (stop + 1 - start).toNat).map (fun k => start.toNat + k)

/-- The output path for scores (lines 131-137): the caller-supplied
directory when given, otherwise a timestamped folder under `results`
(`now_str` abstracts the formatted wall-clock timestamp). -/
def scores_path (output_dir : Option String) (now_str : String) : String :=
  match output_dir with
  | some d => d
  | none => "results" ++ "/" ++ now_str ++ "/"

/-- `if not os.path.exists(path): os.makedirs(path)` (lines 138-139). -/
def mkdirs (fs : FS) (path : String) : FS :=
  if fs.dirs path then fs
  else { fs with dirs := fun d => d == path || fs.dirs d }

/-- The `__main__` block (lines 110-147) after argument parsing: assert the
PAM range, build the output path (a caller-supplied directory, or a
timestamped folder under `results`, where `now_str` abstracts the wall-clock
timestamp), create it, run `dock_variants`, and optionally collect the csv.
A failed assertion raises AssertionError before any directory is created or
any docking runs. -/
def main_model {P S : Type} (env : LibEnv P S) (start stop : Int)
    (output_dir : Option String) (pdb_dir : String)
    (complexArg csvArg : Option (Option String)) (now_str : String)
    (fs : FS) : RunState S :=
  let complex_flag := (parse_optional_switch complexArg).truthy
  let csv_flag := (parse_optional_switch csvArg).truthy
  if 0 ≤ start ∧ start ≤ stop ∧ stop ≤ 63 then
    let pam_variants_to_score := py_range_incl start stop
    let path_to_scores := scores_path output_dir now_str
    let fs1 := mkdirs fs path_to_scores
    let r := dock_variants env pam_variants_to_score path_to_scores pdb_dir
      complex_flag (init_state fs1)
    if csv_flag && r.err.isNone then
      { r with fs := env.results_to_csv path_to_scores r.fs }
    else r
  else
    { init_state fs with err := some "AssertionError" }

/-- Nucleotide for a base-4 digit, the spec's reading of `dna_nts[d]`. -/
def nt_of_digit : Nat → Char
  | 0 => 'a'
  | 1 => 'c'
  | 2 => 'g'
  | _ => 't'

/-- Base-4 digit of a nucleotide, the inverse of `nt_of_digit` on `acgt`. -/
def nt_digit (ch : Char) : Nat :=
  if ch = 'a' then 0 else if ch = 'c' then 1 else if ch = 'g' then 2 else 3

/-- Index recovered from a 3-letter variant string. -/
def index_of_variant (s : String) : Nat :=
  match s.data with
  | [a, b, c] => 16 * nt_digit a + 4 * nt_digit b + nt_digit c
  | _ => 0

/-- The pdb paths `dock_variants` loads for a PAM index list, two per index:
Chimera first, then 3DNA. -/
def expected_loads (path_to_pdbs : String) : List Nat → List String
  | [] => []
  | i :: rest =>
    os_path_join path_to_pdbs
        ["Chimera", "4UN3." ++ ((variant_of_index i).getD "") ++ ".pdb"] ::
    os_path_join path_to_pdbs
        ["3DNA", "4UN3." ++ ((variant_of_index i).getD "") ++ ".pdb"] ::
    expected_loads path_to_pdbs rest

/-- The result files `dock_variants` writes for a PAM index list, two per
index: Chimera first, then 3DNA. -/
def expected_results (path_to_scores : String) : List Nat → List String
  | [] => []
  | i :: rest =>
    os_path_join path_to_scores
        [((variant_of_index i).getD "") ++ "_Chimera.txt"] ::
    os_path_join path_to_scores
        [((variant_of_index i).getD "") ++ "_3DNA.txt"] ::
    expected_results path_to_scores rest

/-- Number of lines a string holds when every written line ends in a
newline, as the report lines do. -/
def count_newlines (s : String) : Nat :=
  s.data.count '\n'

/-- The five report lines written by a single `write_dock_stats` call, as
one string. -/
def dock_report {S : Type} (fmt_f83 : S → String) (a b c d t : S) : String :=
  "Initial DNA score: " ++ fmt_f83 a ++ "\n" ++
  "Final DNA Score: " ++ fmt_f83 b ++ "\n" ++
  "Initial FA score: " ++ fmt_f83 c ++ "\n" ++
  "Final FA score: " ++ fmt_f83 d ++ "\n" ++
  "Total variant time: " ++ fmt_f83 t ++ "\n"

/-- A trivial environment over unit poses and natural-number scores, used to
evaluate the model at concrete inputs. -/
def envUnit : LibEnv Unit Nat :=
  { pose_from_pdb := fun _ => ()
    dna_score := fun _ => 0
    fa_score := fun _ => 0
    docking_apply := fun p => p
    fmt_f83 := fun v => toString v
    time_of := fun _ => 0
    results_to_csv := fun _ fs => fs }

/-- Computation of the variant string for every in-range index: the three
base-4 digits of `i`, high digit first, each mapped through `acgt`. -/
theorem variant_of_index_eq : ∀ i < 64, variant_of_index i =
    some (String.mk [nt_of_digit (i / 16), nt_of_digit (i / 4 % 4), nt_of_digit (i % 4)]) := by
  decide

/-- Recovering the index from the variant string. -/
theorem variant_roundtrip : ∀ i < 64, (variant_of_index i).elim 0 index_of_variant = i := by
  decide

/-- The variant map is injective on the 64 in-range indices. -/
theorem variant_injective (i j : Nat) (hi : i < 64) (hj : j < 64)
    (h : variant_of_index i = variant_of_index j) : i = j := by
  have h1 := variant_roundtrip i hi
  have h2 := variant_roundtrip j hj
  rw [h, h2] at h1
  exact h1.symm

/-- The character list of the alphabet string. -/
theorem dna_nts_data : dna_nts.data = ['a', 'c', 'g', 't'] := rfl

/-- Every 3-letter string over the alphabet is hit: the index rebuilt from
the digits of its letters is in range and maps back to the string. -/
theorem variant_complete (a b c : Char) (ha : a ∈ dna_nts.data)
    (hb : b ∈ dna_nts.data) (hc : c ∈ dna_nts.data) :
    16 * nt_digit a + 4 * nt_digit b + nt_digit c ≤ 63 ∧
    variant_of_index (16 * nt_digit a + 4 * nt_digit b + nt_digit c) =
      some (String.mk [a, b, c]) := by
  rw [dna_nts_data] at ha hb hc
  fin_cases ha <;> fin_cases hb <;> fin_cases hc <;> exact ⟨by decide, by decide⟩

/-- Appending twice to the same file is appending the concatenation. -/
theorem write_append_append (fs : FS) (path t1 t2 : String) :
    (fs.write_append path t1).write_append path t2 =
      fs.write_append path (t1 ++ t2) := by
  simp only [FS.write_append]
  congr 1
  funext p
  by_cases h : p = path <;> simp [h, String.append_assoc]

/-- Appending to one file changes no other file. -/
theorem write_append_other (fs : FS) (path text p : String) (h : p ≠ path) :
    (fs.write_append path text).file p = fs.file p := by
  simp [FS.write_append, h]

/-- Appending to a file extends its previous contents. -/
theorem write_append_same (fs : FS) (path text : String) :
    (fs.write_append path text).file path = fs.file path ++ text := by
  simp [FS.write_append]

/-- `write_dock_stats` on a score list with at least four entries succeeds
and appends exactly the five report lines to the target file. -/
theorem write_dock_stats_four {S : Type} (fmt : S → String) (dir fname : String)
    (a b c d : S) (rest : List S) (t : S) (fs : FS) :
    write_dock_stats fmt dir fname (a :: b :: c :: d :: rest) t fs =
      Except.ok (fs.write_append (os_path_join dir [fname])
        (dock_report fmt a b c d t)) := by
  simp only [write_dock_stats, py_list_get, List.getElem?_cons_zero,
    List.getElem?_cons_succ, bind, Except.bind, dock_report,
    write_append_append, String.append_assoc]

/-- Out-of-range indices make the variant computation raise: the high digit
already falls off the alphabet. -/
theorem variant_of_index_none (i : Nat) (hi : 64 ≤ i) : variant_of_index i = none := by
  have h4 : dna_nts.data.length ≤ i / 16 := by
    rw [dna_nts_data]
    show 4 ≤ i / 16
    omega
  simp [variant_of_index, py_str_index, List.getElem?_eq_none h4]

/-- A pending exception short-circuits the inner loop body. -/
theorem dock_one_program_err {P S : Type} (env : LibEnv P S) (sc pd : String)
    (flag : Bool) (v prog : String) (st : RunState S) (h : st.err.isSome = true) :
    dock_one_program env sc pd flag v prog st = st := by
  simp [dock_one_program, h]

/-- A pending exception short-circuits the outer loop body. -/
theorem dock_one_variant_err {P S : Type} (env : LibEnv P S) (sc pd : String)
    (flag : Bool) (i : Nat) (st : RunState S) (h : st.err.isSome = true) :
    dock_one_variant env sc pd flag i st = st := by
  simp [dock_one_variant, h]

/-- A pending exception short-circuits the whole run. -/
theorem dock_variants_err {P S : Type} (env : LibEnv P S) (pam : List Nat)
    (sc pd : String) (flag : Bool) (st : RunState S) (h : st.err.isSome = true) :
    dock_variants env pam sc pd flag st = st := by
  induction pam with
  | nil => rfl
  | cons i t ih =>
    show dock_variants env t sc pd flag (dock_one_variant env sc pd flag i st) = st
    rw [dock_one_variant_err env sc pd flag i st h]
    exact ih

/-- Unfolding one step of the outer loop. -/
theorem dock_variants_cons {P S : Type} (env : LibEnv P S) (i : Nat) (t : List Nat)
    (sc pd : String) (flag : Bool) (st : RunState S) :
    dock_variants env (i :: t) sc pd flag st =
      dock_variants env t sc pd flag (dock_one_variant env sc pd flag i st) := rfl

/-- An index whose variant computation raises poisons the state at once. -/
theorem dock_one_variant_idx_err {P S : Type} (env : LibEnv P S) (sc pd : String)
    (flag : Bool) (i : Nat) (st : RunState S) (h : st.err = none)
    (hi : variant_of_index i = none) :
    dock_one_variant env sc pd flag i st = { st with err := some "IndexError" } := by
  simp [dock_one_variant, h, hi]

/-- Simple-docking inner step from a clean state: one pose load, one result
file, no exception, `dock_stats` bound to the four scores. -/
theorem dock_one_program_simple {P S : Type} (env : LibEnv P S) (sc pd v prog : String)
    (st : RunState S) (h : st.err = none) :
    (dock_one_program env sc pd false v prog st).err = none ∧
    (dock_one_program env sc pd false v prog st).loads =
      st.loads ++ [os_path_join pd [prog, "4UN3." ++ v ++ ".pdb"]] ∧
    (dock_one_program env sc pd false v prog st).result_files =
      st.result_files ++ [os_path_join sc [v ++ "_" ++ prog ++ ".txt"]] := by
  simp [dock_one_program, h, dock_simple, write_dock_stats_four]

/-- Complex-docking inner step from a clean state: the pose is loaded, then
`dock_complex` raises before any result file is written. -/
theorem dock_one_program_complex {P S : Type} (env : LibEnv P S) (sc pd v prog : String)
    (st : RunState S) (h : st.err = none) :
    dock_one_program env sc pd true v prog st =
      { st with
        loads := st.loads ++ [os_path_join pd [prog, "4UN3." ++ v ++ ".pdb"]]
        err := some "Complex docking not implemented" } := by
  simp [dock_one_program, h, dock_complex]

/-- Simple-docking outer step for an in-range index from a clean state: two
pose loads and two result files, Chimera first, then 3DNA. -/
theorem dock_one_variant_simple {P S : Type} (env : LibEnv P S) (sc pd : String)
    (i : Nat) (st : RunState S) (h : st.err = none) (hi : i < 64) :
    (dock_one_variant env sc pd false i st).err = none ∧
    (dock_one_variant env sc pd false i st).loads =
      st.loads ++ expected_loads pd [i] ∧
    (dock_one_variant env sc pd false i st).result_files =
      st.result_files ++ expected_results sc [i] := by
  obtain ⟨v, hvv⟩ : ∃ v, variant_of_index i = some v := ⟨_, variant_of_index_eq i hi⟩
  have hun : dock_one_variant env sc pd false i st =
      dock_one_program env sc pd false v "3DNA"
        (dock_one_program env sc pd false v "Chimera" st) := by
    simp [dock_one_variant, h, hvv, programs]
  have s1 := dock_one_program_simple env sc pd v "Chimera" st h
  have s2 := dock_one_program_simple env sc pd v "3DNA"
    (dock_one_program env sc pd false v "Chimera" st) s1.1
  rw [hun]
  refine ⟨s2.1, ?_, ?_⟩
  · rw [s2.2.1, s1.2.1]
    simp [expected_loads, hvv, List.append_assoc]
  · rw [s2.2.2, s1.2.2]
    simp [expected_results, hvv, List.append_assoc, String.append_assoc]

/-- Simple-docking run from a clean state over in-range indices: no
exception, and the loads and result files are exactly the expected traces,
two per index, in order. -/
theorem dock_variants_simple_trace {P S : Type} (env : LibEnv P S) (pam : List Nat)
    (sc pd : String) (st : RunState S) (h : st.err = none)
    (hv : ∀ i ∈ pam, i < 64) :
    (dock_variants env pam sc pd false st).err = none ∧
    (dock_variants env pam sc pd false st).loads = st.loads ++ expected_loads pd pam ∧
    (dock_variants env pam sc pd false st).result_files =
      st.result_files ++ expected_results sc pam := by
  induction pam generalizing st with
  | nil =>
    refine ⟨h, ?_, ?_⟩ <;> simp [dock_variants, expected_loads, expected_results]
  | cons i t ih =>
    have hi : i < 64 := hv i (List.mem_cons_self i t)
    have step := dock_one_variant_simple env sc pd i st h hi
    have hrest := ih (dock_one_variant env sc pd false i st) step.1
      (fun j hj => hv j (List.mem_cons_of_mem i hj))
    rw [dock_variants_cons]
    refine ⟨hrest.1, ?_, ?_⟩
    · rw [hrest.2.1, step.2.1]
      simp [expected_loads, List.append_assoc]
    · rw [hrest.2.2, step.2.2]
      simp [expected_results, List.append_assoc]

/-- Complex-docking run on a non-empty in-range list: the first Chimera pose
is loaded, `dock_complex` raises, and nothing further happens. -/
theorem dock_variants_complex_first {P S : Type} (env : LibEnv P S) (i : Nat)
    (rest : List Nat) (sc pd : String) (st : RunState S) (h : st.err = none)
    (hi : i < 64) :
    dock_variants env (i :: rest) sc pd true st =
      { st with
        loads := st.loads ++
          [os_path_join pd ["Chimera", "4UN3." ++ ((variant_of_index i).getD "") ++ ".pdb"]]
        err := some "Complex docking not implemented" } := by
  obtain ⟨v, hvv⟩ : ∃ v, variant_of_index i = some v := ⟨_, variant_of_index_eq i hi⟩
  have h1 := dock_one_program_complex env sc pd v "Chimera" st h
  have hfirst : dock_one_variant env sc pd true i st =
      dock_one_program env sc pd true v "3DNA"
        (dock_one_program env sc pd true v "Chimera" st) := by
    simp [dock_one_variant, h, hvv, programs]
  have h2 : dock_one_program env sc pd true v "3DNA"
      (dock_one_program env sc pd true v "Chimera" st) =
      dock_one_program env sc pd true v "Chimera" st := by
    apply dock_one_program_err
    simp [h1]
  rw [dock_variants_cons, hfirst, h2]
  rw [dock_variants_err env rest sc pd true
    (dock_one_program env sc pd true v "Chimera" st) (by simp [h1])]
  rw [h1, hvv]
  simp

/-- Membership in the range the main block scores: exactly the integers
from `start` to `stop` inclusive. -/
theorem py_range_incl_mem (start stop : Int) (hs : 0 ≤ start) (n : Nat) :
    n ∈ py_range_incl start stop ↔ start ≤ (n : Int) ∧ (n : Int) ≤ stop := by
  simp only [py_range_incl, List.mem_map, List.mem_range]
  constructor
  · rintro ⟨k, hk, rfl⟩
    constructor <;> [omega; omega]
  · rintro ⟨h1, h2⟩
    exact ⟨n - start.toNat, by omega, by omega⟩

/-- Newline counting distributes over concatenation. -/
theorem count_newlines_append (a b : String) :
    count_newlines (a ++ b) = count_newlines a + count_newlines b := by
  simp [count_newlines, String.data_append]

/-- When the rendered numbers hold no newline, one report is exactly five
lines. -/
theorem count_newlines_report {S : Type} (fmt : S → String)
    (hf : ∀ v : S, count_newlines (fmt v) = 0) (a b c d t : S) :
    count_newlines (dock_report fmt a b c d t) = 5 := by
  simp [dock_report, count_newlines_append, hf,
    show count_newlines "Initial DNA score: " = 0 from rfl,
    show count_newlines "Final DNA Score: " = 0 from rfl,
    show count_newlines "Initial FA score: " = 0 from rfl,
    show count_newlines "Final FA score: " = 0 from rfl,
    show count_newlines "Total variant time: " = 0 from rfl,
    show count_newlines "\n" = 1 from rfl]

/-- In the branch where the assertion passes, the main block is the docking
run over the inclusive range, optionally followed by the csv collection. -/
theorem main_model_ok {P S : Type} (env : LibEnv P S) (start stop : Int)
    (output_dir : Option String) (pdb_dir : String)
    (complexArg csvArg : Option (Option String)) (now_str : String) (fs : FS)
    (hok : 0 ≤ start ∧ start ≤ stop ∧ stop ≤ 63) :
    main_model env start stop output_dir pdb_dir complexArg csvArg now_str fs =
      (let r := dock_variants env (py_range_incl start stop)
        (scores_path output_dir now_str) pdb_dir
        (parse_optional_switch complexArg).truthy
        (init_state (mkdirs fs (scores_path output_dir now_str)))
       if (parse_optional_switch csvArg).truthy && r.err.isNone then
         { r with fs := env.results_to_csv (scores_path output_dir now_str) r.fs }
       else r) := by
  simp only [main_model, if_pos hok]

/-- The optional csv step only touches the file system: the trace fields
and the exception field pass through. -/
theorem csv_wrap_fields {S : Type} (cond : Bool) (f : FS) (r : RunState S) :
    ((if cond then { r with fs := f } else r).err = r.err) ∧
    ((if cond then { r with fs := f } else r).loads = r.loads) ∧
    ((if cond then { r with fs := f } else r).result_files = r.result_files) := by
  cases cond <;> exact ⟨rfl, rfl, rfl⟩

/-- C1: for every integer `i` with `0 ≤ i ≤ 63`, the variant string built
at line 91 is the 3-letter string whose letters are the three base-4 digits
of `i` (high digit first) mapped through `dna_nts = "acgt"`, and this
mapping is a bijection from `{0, ..., 63}` onto the 3-letter strings over
`{a, c, g, t}`: injective on the range, and every such string is reached
from an index in the range. -/
theorem claim_C1 :
    (∀ i : Nat, i ≤ 63 → variant_of_index i =
      some (String.mk [nt_of_digit (i / 16), nt_of_digit (i / 4 % 4), nt_of_digit (i % 4)])) ∧
    (∀ i j : Nat, i ≤ 63 → j ≤ 63 → variant_of_index i = variant_of_index j → i = j) ∧
    (∀ s : String, s.length = 3 → (∀ ch ∈ s.data, ch ∈ dna_nts.data) →
      ∃ i : Nat, i ≤ 63 ∧ variant_of_index i = some s) := by
  refine ⟨fun i hi => variant_of_index_eq i (by omega),
    fun i j hi hj h => variant_injective i j (by omega) (by omega) h, ?_⟩
  intro s hlen hch
  obtain ⟨data⟩ := s
  obtain ⟨a, b, c, rfl⟩ : ∃ a b c, data = [a, b, c] := by
    have h3 : data.length = 3 := hlen
    exact List.length_eq_three.mp h3
  have ha : a ∈ dna_nts.data := hch a (by simp)
  have hb : b ∈ dna_nts.data := hch b (by simp)
  have hc : c ∈ dna_nts.data := hch c (by simp)
  obtain ⟨hle, heq⟩ := variant_complete a b c ha hb hc
  exact ⟨_, hle, heq⟩

/-- Witness for C1: the formula at index 6, injectivity at 42, and
surjectivity at the string tga. -/
theorem claim_C1_witness :
    variant_of_index 6 =
      some (String.mk [nt_of_digit (6 / 16), nt_of_digit (6 / 4 % 4), nt_of_digit (6 % 4)]) ∧
    (42 : Nat) = 42 ∧
    (∃ i : Nat, i ≤ 63 ∧ variant_of_index i = some (String.mk ['t', 'g', 'a'])) :=
  ⟨claim_C1.1 6 (by decide),
   claim_C1.2.1 42 42 (by decide) (by decide) rfl,
   claim_C1.2.2 (String.mk ['t', 'g', 'a']) (by decide) (by decide)⟩

/-- C2: a single `write_dock_stats` call succeeds and appends to the file
`score_directory/filename` exactly the five labelled lines, in this order:
Initial DNA score, Final DNA Score, Initial FA score, Final FA score and
Total variant time, carrying the first four score entries and the time
difference, each rendered through the `%8.3f` formatter. -/
theorem claim_C2 {S : Type} (fmt_f83 : S → String) (score_directory filename : String)
    (a b c d : S) (rest : List S) (time_diff : S) (fs : FS) :
    write_dock_stats fmt_f83 score_directory filename (a :: b :: c :: d :: rest)
        time_diff fs =
      Except.ok (fs.write_append (os_path_join score_directory [filename])
        ("Initial DNA score: " ++ fmt_f83 a ++ "\n" ++
         "Final DNA Score: " ++ fmt_f83 b ++ "\n" ++
         "Initial FA score: " ++ fmt_f83 c ++ "\n" ++
         "Final FA score: " ++ fmt_f83 d ++ "\n" ++
         "Total variant time: " ++ fmt_f83 time_diff ++ "\n")) :=
  write_dock_stats_four fmt_f83 score_directory filename a b c d rest time_diff fs

/-- C3: `dock_simple` reads both score functions on the pose before the
docking protocol is applied, reads both again on the docked pose, and
returns exactly [dna_init, dna_final, fa_init, fa_final]. -/
theorem claim_C3 {P S : Type} (dna_score fa_score : P → S) (docking_apply : P → P)
    (pose : P) :
    dock_simple dna_score fa_score docking_apply pose =
      ([dna_score pose, dna_score (docking_apply pose),
        fa_score pose, fa_score (docking_apply pose)], docking_apply pose) := rfl

/-- C4: with simple docking over in-range indices, each index in
`pam_variants` is processed with Chimera first and 3DNA second; for each
program the structure is loaded from
`path_to_pdbs/program/4UN3.<variant>.pdb`, and one result file named
`<variant>_<program>.txt` is written into `path_to_scores`, so two result
files per PAM variant, with no exception raised. -/
theorem claim_C4 {P S : Type} (env : LibEnv P S) (pam_variants : List Nat)
    (path_to_scores path_to_pdbs : String) (fs : FS)
    (hvalid : ∀ i ∈ pam_variants, i ≤ 63) :
    (dock_variants env pam_variants path_to_scores path_to_pdbs false
        (init_state fs)).err = none ∧
    (dock_variants env pam_variants path_to_scores path_to_pdbs false
        (init_state fs)).loads = expected_loads path_to_pdbs pam_variants ∧
    (dock_variants env pam_variants path_to_scores path_to_pdbs false
        (init_state fs)).result_files = expected_results path_to_scores pam_variants := by
  have h := dock_variants_simple_trace env pam_variants path_to_scores path_to_pdbs
    (init_state fs) rfl (fun i hi => by have := hvalid i hi; omega)
  simpa [init_state] using h

/-- Witness for C4: one variant, index 0, over the trivial environment. -/
theorem claim_C4_witness :
    (dock_variants envUnit [0] "scores" "pdbs" false (init_state fsEmpty)).err = none ∧
    (dock_variants envUnit [0] "scores" "pdbs" false (init_state fsEmpty)).loads =
      expected_loads "pdbs" [0] ∧
    (dock_variants envUnit [0] "scores" "pdbs" false (init_state fsEmpty)).result_files =
      expected_results "scores" [0] :=
  claim_C4 envUnit [0] "scores" "pdbs" fsEmpty (by decide)

/-- C5: `dock_complex` raises on every pose and never returns a score
list. -/
theorem claim_C5 {P S : Type} (pose : P) :
    dock_complex (S := S) pose = Except.error "Complex docking not implemented" ∧
    ∀ scores : List S, dock_complex pose ≠ Except.ok scores :=
  ⟨rfl, fun _ h => by simp [dock_complex] at h⟩

/-- C6: the main block validates `0 ≤ start ≤ end ≤ 63` before anything
else.  When the check fails the run stops with AssertionError: the file
system (files and directories alike) is untouched, no pose is loaded and no
result file is written.  When the check holds and simple docking is
selected, the run raises nothing and the variant indices scored — visible
as two pose loads and two result files per index — are exactly the members
of `py_range_incl start stop`, which are precisely the integers from
`start` to `stop` inclusive. -/
theorem claim_C6 {P S : Type} (env : LibEnv P S) (start stop : Int)
    (output_dir : Option String) (pdb_dir : String)
    (complexArg csvArg : Option (Option String)) (now_str : String) (fs : FS) :
    (¬ (0 ≤ start ∧ start ≤ stop ∧ stop ≤ 63) →
      main_model env start stop output_dir pdb_dir complexArg csvArg now_str fs =
        { init_state fs with err := some "AssertionError" }) ∧
    ((0 ≤ start ∧ start ≤ stop ∧ stop ≤ 63) → complexArg = none →
      (main_model env start stop output_dir pdb_dir complexArg csvArg now_str fs).err
        = none ∧
      (main_model env start stop output_dir pdb_dir complexArg csvArg now_str fs).loads
        = expected_loads pdb_dir (py_range_incl start stop) ∧
      (main_model env start stop output_dir pdb_dir complexArg csvArg now_str fs).result_files
        = expected_results (scores_path output_dir now_str) (py_range_incl start stop) ∧
      (∀ n : Nat, n ∈ py_range_incl start stop ↔
        start ≤ (n : Int) ∧ (n : Int) ≤ stop)) := by
  constructor
  · intro hfail
    simp only [main_model, if_neg hfail]
  · intro hok hca
    subst hca
    have hv : ∀ i ∈ py_range_incl start stop, i < 64 := by
      intro i hi
      have := (py_range_incl_mem start stop hok.1 i).mp hi
      omega
    have tr := dock_variants_simple_trace env (py_range_incl start stop)
      (scores_path output_dir now_str) pdb_dir
      (init_state (mkdirs fs (scores_path output_dir now_str))) rfl hv
    rw [main_model_ok env start stop output_dir pdb_dir none csvArg now_str fs hok]
    have hw := csv_wrap_fields ((parse_optional_switch csvArg).truthy &&
      (dock_variants env (py_range_incl start stop) (scores_path output_dir now_str)
        pdb_dir (parse_optional_switch none).truthy
        (init_state (mkdirs fs (scores_path output_dir now_str)))).err.isNone)
      (env.results_to_csv (scores_path output_dir now_str)
        (dock_variants env (py_range_incl start stop) (scores_path output_dir now_str)
          pdb_dir (parse_optional_switch none).truthy
          (init_state (mkdirs fs (scores_path output_dir now_str)))).fs)
      (dock_variants env (py_range_incl start stop) (scores_path output_dir now_str)
        pdb_dir (parse_optional_switch none).truthy
        (init_state (mkdirs fs (scores_path output_dir now_str))))
    refine ⟨?_, ?_, ?_, fun n => py_range_incl_mem start stop hok.1 n⟩
    · rw [hw.1]
      simpa [init_state, parse_optional_switch, PyVal.truthy] using tr.1
    · rw [hw.2.1]
      simpa [init_state, parse_optional_switch, PyVal.truthy] using tr.2.1
    · rw [hw.2.2]
      simpa [init_state, parse_optional_switch, PyVal.truthy] using tr.2.2

/-- Witness for C6: a reversed range aborts with AssertionError; the range
0..0 runs clean. -/
theorem claim_C6_witness :
    main_model envUnit 1 0 none "" none none "ts" fsEmpty =
      { init_state fsEmpty with err := some "AssertionError" } ∧
    (main_model envUnit 0 0 none "" none none "ts" fsEmpty).err = none :=
  ⟨(claim_C6 envUnit 1 0 none "" none none "ts" fsEmpty).1 (by decide),
   ((claim_C6 envUnit 0 0 none "" none none "ts" fsEmpty).2 (by decide) rfl).1⟩

/-- C7 counterexample: not every exception is propagated from the external
library — the repository's own code raises: `dock_complex` raises its
hand-written error on any pose, and the main block's own assertion raises
AssertionError on an invalid range.  Neither error comes from a library
call (every library call in the model is total). -/
theorem claim_C7_counterexample :
    dock_complex (P := Unit) (S := Unit) () =
      Except.error "Complex docking not implemented" ∧
    (main_model envUnit 1 0 none "" none none "ts" fsEmpty).err =
      some "AssertionError" := by
  exact ⟨rfl, by decide⟩

/-- C7 amended: the script defines no exception class of its own, but it
does construct and raise exceptions itself rather than only propagating
library ones: `dock_complex` raises unconditionally, and the main block's
range assertion raises AssertionError whenever the bounds check fails. -/
theorem claim_C7_amended {P S : Type} :
    (∀ pose : P, dock_complex (S := S) pose =
      Except.error "Complex docking not implemented") ∧
    (∀ (env : LibEnv P S) (start stop : Int) (output_dir : Option String)
      (pdb_dir : String) (complexArg csvArg : Option (Option String))
      (now_str : String) (fs : FS),
      ¬ (0 ≤ start ∧ start ≤ stop ∧ stop ≤ 63) →
      (main_model env start stop output_dir pdb_dir complexArg csvArg now_str fs).err =
        some "AssertionError") := by
  refine ⟨fun _ => rfl, ?_⟩
  intro env start stop output_dir pdb_dir ca cva ns fs hfail
  simp only [main_model, if_neg hfail]

/-- Witness for C7 amended: the raise on a unit pose and the assertion
failure on the reversed range 1..0. -/
theorem claim_C7_amended_witness :
    dock_complex (P := Unit) (S := Nat) () =
      Except.error "Complex docking not implemented" ∧
    (main_model envUnit 1 0 none "" none none "ts" fsEmpty).err =
      some "AssertionError" :=
  ⟨(claim_C7_amended (P := Unit) (S := Nat)).1 (),
   (claim_C7_amended (P := Unit) (S := Nat)).2 envUnit 1 0 none "" none none "ts"
     fsEmpty (by decide)⟩

/-- C8: `write_dock_stats` opens its file in append mode: a call only ever
extends contents — every byte present before the call is still there, as a
prefix, afterward — and no other file changes.  A second call for the same
variant file therefore leaves the first five lines intact and adds five
more: when the file started empty and the formatter emits no newline, the
file holds five lines after the first call and ten lines, not five, after
the second. -/
theorem claim_C8 {S : Type} (fmt_f83 : S → String) (score_directory filename : String)
    (a b c d : S) (rest : List S) (t : S)
    (a2 b2 c2 d2 : S) (rest2 : List S) (t2 : S) (fs fs1 fs2 : FS)
    (h1 : write_dock_stats fmt_f83 score_directory filename
      (a :: b :: c :: d :: rest) t fs = Except.ok fs1)
    (h2 : write_dock_stats fmt_f83 score_directory filename
      (a2 :: b2 :: c2 :: d2 :: rest2) t2 fs1 = Except.ok fs2) :
    (∀ p : String, ∃ added : String, fs1.file p = fs.file p ++ added) ∧
    (∀ p : String, ∃ added : String, fs2.file p = fs1.file p ++ added) ∧
    fs2.file (os_path_join score_directory [filename]) =
      fs.file (os_path_join score_directory [filename]) ++
        dock_report fmt_f83 a b c d t ++ dock_report fmt_f83 a2 b2 c2 d2 t2 ∧
    ((∀ v : S, count_newlines (fmt_f83 v) = 0) →
      fs.file (os_path_join score_directory [filename]) = "" →
      count_newlines (fs1.file (os_path_join score_directory [filename])) = 5 ∧
      count_newlines (fs2.file (os_path_join score_directory [filename])) = 10) := by
  have e1 : fs1 = fs.write_append (os_path_join score_directory [filename])
      (dock_report fmt_f83 a b c d t) :=
    (Except.ok.inj ((write_dock_stats_four fmt_f83 score_directory filename
      a b c d rest t fs).symm.trans h1)).symm
  subst e1
  have e2 : fs2 = (fs.write_append (os_path_join score_directory [filename])
        (dock_report fmt_f83 a b c d t)).write_append
      (os_path_join score_directory [filename])
      (dock_report fmt_f83 a2 b2 c2 d2 t2) :=
    (Except.ok.inj ((write_dock_stats_four fmt_f83 score_directory filename
      a2 b2 c2 d2 rest2 t2 _).symm.trans h2)).symm
  subst e2
  refine ⟨?_, ?_, ?_, ?_⟩
  · intro p
    by_cases hp : p = os_path_join score_directory [filename]
    · subst hp
      exact ⟨_, write_append_same fs _ _⟩
    · exact ⟨"", by rw [write_append_other fs _ _ p hp, String.append_empty]⟩
  · intro p
    by_cases hp : p = os_path_join score_directory [filename]
    · subst hp
      exact ⟨_, write_append_same _ _ _⟩
    · exact ⟨"", by rw [write_append_other _ _ _ p hp, String.append_empty]⟩
  · rw [write_append_same, write_append_same]
  · intro hf h0
    constructor
    · rw [write_append_same, h0, count_newlines_append,
        count_newlines_report fmt_f83 hf]
      rfl
    · rw [write_append_same, write_append_same, h0, count_newlines_append,
        count_newlines_append, count_newlines_report fmt_f83 hf,
        count_newlines_report fmt_f83 hf]
      rfl

/-- Witness for C8: two concrete writes into an initially empty file leave
five lines after the first and ten lines after the second. -/
theorem claim_C8_witness :
    count_newlines ((fsEmpty.write_append (os_path_join "sc" ["f.txt"])
        (dock_report (fun _ : Nat => "0.000") 0 0 0 0 0)).file
      (os_path_join "sc" ["f.txt"])) = 5 ∧
    count_newlines (((fsEmpty.write_append (os_path_join "sc" ["f.txt"])
        (dock_report (fun _ : Nat => "0.000") 0 0 0 0 0)).write_append
          (os_path_join "sc" ["f.txt"])
        (dock_report (fun _ : Nat => "0.000") 1 1 1 1 1)).file
      (os_path_join "sc" ["f.txt"])) = 10 :=
  (claim_C8 (fun _ : Nat => "0.000") "sc" "f.txt" 0 0 0 0 [] 0 1 1 1 1 [] 1
    fsEmpty _ _
    (write_dock_stats_four (fun _ : Nat => "0.000") "sc" "f.txt" 0 0 0 0 [] 0 fsEmpty)
    (write_dock_stats_four (fun _ : Nat => "0.000") "sc" "f.txt" 1 1 1 1 [] 1
      _)).2.2.2 (fun _ => rfl) rfl

/-- C9: with the complex docking flag set, any run over a non-empty variant
list raises on the very first variant/program combination: the exception
field is set, no result file is written and the file system is untouched;
for an in-range first index the exception is exactly the `dock_complex` one
and exactly the first Chimera pose was loaded before it. -/
theorem claim_C9 {P S : Type} (env : LibEnv P S) (i : Nat) (rest : List Nat)
    (path_to_scores path_to_pdbs : String) (fs : FS) :
    ((dock_variants env (i :: rest) path_to_scores path_to_pdbs true
        (init_state fs)).err.isSome = true ∧
     (dock_variants env (i :: rest) path_to_scores path_to_pdbs true
        (init_state fs)).result_files = [] ∧
     (dock_variants env (i :: rest) path_to_scores path_to_pdbs true
        (init_state fs)).fs = fs) ∧
    (i ≤ 63 →
     (dock_variants env (i :: rest) path_to_scores path_to_pdbs true
        (init_state fs)).err = some "Complex docking not implemented" ∧
     (dock_variants env (i :: rest) path_to_scores path_to_pdbs true
        (init_state fs)).loads =
       [os_path_join path_to_pdbs
         ["Chimera", "4UN3." ++ ((variant_of_index i).getD "") ++ ".pdb"]]) := by
  by_cases hi : i ≤ 63
  · have h := dock_variants_complex_first env i rest path_to_scores path_to_pdbs
      (init_state fs) rfl (by omega)
    rw [h]
    exact ⟨⟨rfl, rfl, rfl⟩, fun _ => ⟨rfl, by simp [init_state]⟩⟩
  · have hnone := variant_of_index_none i (by omega)
    have h1 := dock_one_variant_idx_err env path_to_scores path_to_pdbs true i
      (init_state fs) rfl hnone
    have h2 := dock_variants_err env rest path_to_scores path_to_pdbs true
      ({ init_state fs with err := some "IndexError" } : RunState S) rfl
    rw [dock_variants_cons, h1, h2]
    exact ⟨⟨rfl, rfl, rfl⟩, fun hle => absurd hle hi⟩

/-- Witness for C9: a concrete complex-mode run over the single index 0. -/
theorem claim_C9_witness :
    (dock_variants envUnit [0] "scores" "pdbs" true (init_state fsEmpty)).err =
      some "Complex docking not implemented" ∧
    (dock_variants envUnit [0] "scores" "pdbs" true (init_state fsEmpty)).loads =
      [os_path_join "pdbs"
        ["Chimera", "4UN3." ++ ((variant_of_index 0).getD "") ++ ".pdb"]] :=
  (claim_C9 envUnit 0 [] "scores" "pdbs" fsEmpty).2 (by decide)

/-- C10: the --complex and --csv switches are read through Python string
truthiness: an absent option is the boolean default False, the bare switch
is the const True, and an explicit value is a string, truthy whenever
non-empty — so the explicit text False is truthy, and with it the complex
branch (which raises) is selected rather than disabled. -/
theorem claim_C10 :
    (parse_optional_switch none).truthy = false ∧
    (parse_optional_switch (some none)).truthy = true ∧
    (∀ v : String, (parse_optional_switch (some (some v))).truthy = !v.isEmpty) ∧
    (parse_optional_switch (some (some "False"))).truthy = true ∧
    (∀ (P S : Type) (env : LibEnv P S) (path_to_scores path_to_pdbs : String)
      (fs : FS),
      (dock_variants env [0] path_to_scores path_to_pdbs
          (parse_optional_switch (some (some "False"))).truthy (init_state fs)).err =
        some "Complex docking not implemented") := by
  refine ⟨rfl, rfl, fun v => rfl, rfl, ?_⟩
  intro P S env sc pd fs
  have ht : (parse_optional_switch (some (some "False"))).truthy = true := rfl
  rw [ht]
  have h := dock_variants_complex_first env 0 [] sc pd (init_state fs) rfl (by omega)
  rw [h]

end DockVariants
